import Mathlib

set_option maxRecDepth 100000

/-!
Verification development for the ad-library scraper service.

The repository is a TypeScript service (`src/index.ts` plus an unnamed module
containing `scrape`, `scrapeV2`, `scrapeV3`, `diagnose` and the Express front
door).  The core extraction pipeline is shallowly embedded here as pure Lean
functions.  Browser, network and clock effects are supplied through explicit
environment records (`EnvRun`, `EnvV3`): each field is the value the
corresponding external call would return, so every run of the embedded
pipeline corresponds to one possible run of the real one.  Loops that the
source bounds only by wall clock are embedded with an explicit fuel
parameter; all stated results hold for every fuel value, or supply enough
fuel for the concrete scenario.

JavaScript-specific semantics mirrored here:
  * `x && y` / `x || y` truthiness on nullable strings: the empty string and
    null are falsy (`truthy` / `jsOr` below).
  * `Array.prototype.sort` is stable (V8), so `sort(desc)[0]` is the first
    element of maximal key (`pickLargest`).
  * `String.match` / regex `test` scan left to right with bump-along; the
    literal-anchored patterns used by the source are embedded by enumerating
    the occurrences of their literal prefix (`afterOccs`) and parsing the
    remainder.
  * `page.goto` resolves normally on HTTP error statuses such as 403 (it
    rejects only on network failure or timeout); a 403 response is observed
    by the `page.on('response')` listener, which appends a blocked-request
    marker.
-/

/-- JS truthiness for a nullable string: `null` and `""` are falsy. -/
def truthy : Option String → Bool
  | none => false
  | some s => !s.isEmpty

/-- JS `a || b` on nullable strings. -/
def jsOr (a b : Option String) : Option String :=
  if truthy a then a else b

/-- Splitting on a non-empty separator, scanning left to right over the
character list (the semantics of JS `String.split` and of `String.splitOn`,
reimplemented structurally).  The fuel starts at the input length and
each step consumes at least one character, so it never runs out. -/
def splitOnLAux (sep : List Char) : Nat → List Char → List Char → List (List Char)
  | _, [], acc => [acc.reverse]
  | 0, s, acc => [acc.reverse ++ s]
  | fuel + 1, c :: rest, acc =>
    if sep.isPrefixOf (c :: rest) then
      acc.reverse :: splitOnLAux sep fuel ((c :: rest).drop sep.length) []
    else
      splitOnLAux sep fuel rest (c :: acc)

def splitOnL (sep l : List Char) : List (List Char) :=
  splitOnLAux sep l.length l []

/-- `s.splitOn sep` for a non-empty separator. -/
def splitOnS (s sep : String) : List String :=
  (splitOnL sep.toList s.toList).map String.mk

/-- Joining with a separator (inverse of splitting). -/
def joinSep (sep : List Char) : List (List Char) → List Char
  | [] => []
  | [x] => x
  | x :: y :: xs => x ++ sep ++ joinSep sep (y :: xs)

/-- JS `String.prototype.trim`. -/
def jsTrim (s : String) : String :=
  String.mk
    (((s.toList.dropWhile Char.isWhitespace).reverse.dropWhile
        Char.isWhitespace).reverse)

/-- JS `String.prototype.includes` (for a non-empty pattern). -/
def containsStr (s pat : String) : Bool :=
  2 ≤ (splitOnS s pat).length

/-- All suffixes of `s` that start right after an occurrence of the literal
`lit`, in occurrence order.  This enumerates the candidate match positions of
a regex whose pattern begins with the literal `lit`. -/
def afterOccs (lit s : String) : List String :=
  let segs := (splitOnL lit.toList s.toList).tail
  (List.range segs.length).map
    (fun i => String.mk (joinSep lit.toList (segs.drop i)))

/-- Insertion into `[...new Set(l)]`: keep the first occurrence of each
element, preserving order. -/
def firstWins (l : List String) : List String :=
  l.foldl (fun acc x => if acc.contains x then acc else acc ++ [x]) []

/-- Consume an exact literal prefix. -/
def dropLit (lit : String) (cs : List Char) : Option (List Char) :=
  if lit.toList.isPrefixOf cs then some (cs.drop lit.length) else none

/-- Consume exactly `n` characters satisfying `p`. -/
def takeCount (p : Char → Bool) : Nat → List Char → Option (List Char)
  | 0, cs => some cs
  | n + 1, c :: cs => if p c then takeCount p n cs else none
  | _ + 1, [] => none

-- --- Data model (the `ScrapedAd` / `ScrapeResult` interfaces) ---

inductive AssetType where
  | image
  | video
deriving DecidableEq, Repr

structure ScrapedAd where
  libraryId : String
  assetType : AssetType
  assetUrl : Option String
  thumbnailUrl : Option String
  startDate : Option String
  endDate : Option String
  lowImpressionCount : Bool
  impressions : Option String
deriving DecidableEq, Repr

/-- Diagnostic entries pushed onto the run's `diagnostics` array.  Generic
snapshots keep only their label; the token diagnostics of `scrapeV3` keep the
fields the source stores with them. -/
inductive Diag where
  | labeled (label : String)
  | tokens (trafficDocId adQueryDocId : Option String) (hasDtsg hasLsd : Bool)
      (forwardCursor endCursor hasNextPage collationToken sessionId : Option String)
  | graphqlTrafficDump
  | missingTokens (hasCursor hasDtsg hasDocId : Bool)
  | apiFail (page status : Nat)
  | apiNoData (page : Nat)
  | pageErrors (errs : List String)
deriving DecidableEq, Repr

structure ScrapeResult where
  success : Bool
  ads : List ScrapedAd
  totalFound : Nat
  errors : List String
  durationMs : Nat
  advertiserName : Option String
  diagnostics : List Diag
  blockedRequests : List String
  consoleErrors : List String
deriving DecidableEq, Repr

-- --- Constants (lines 31-36 of the unnamed module) ---

def MIN_ADS : Int := 10
def MAX_ADS : Int := 1000
def DEFAULT_ADS : Int := 400
def DEFAULT_TIMEOUT_MS : Nat := 180000
def MAX_STALE_SCROLLS : Nat := 10

/-- `const limit = Math.max(MIN_ADS, Math.min(MAX_ADS, adLimit))` — the
effective record limit computed by `scrape`, `scrapeV2` and `scrapeV3`. -/
def effectiveLimit (adLimit : Int) : Int :=
  max MIN_ADS (min MAX_ADS adLimit)

-- --- DOM model for `extractAdsFromDom` ---

/-- A `<video>` element: `src` and `poster` attributes ("" when unset,
matching the DOM's empty-string default that JS treats as falsy). -/
structure DomVideo where
  src : String
  poster : String
deriving DecidableEq, Repr

/-- An `<img>` element with its rendered natural dimensions. -/
structure DomImg where
  src : String
  naturalWidth : Nat
  naturalHeight : Nat
deriving DecidableEq, Repr

/-- One ad-card container element.  `metaSpans` are the text contents of the
spans matching the metadata selector (the source's `libraryIdSpan` is the
first of these, `metadataSpans` is the whole list); `allSpans` are the text
contents of every descendant span; `video` is the first `<video>` descendant
if any; `imgs` are the `<img>` descendants in document order. -/
structure DomCard where
  metaSpans : List String
  allSpans : List String
  video : Option DomVideo
  imgs : List DomImg
deriving DecidableEq, Repr

/-- Regex `Library ID:[ ]*([0-9]+)` — first match wins, capture is the digit
run. -/
def matchLibraryId (t : String) : Option String :=
  (afterOccs "Library ID:" t).findSome? (fun rest =>
    let ds := (rest.toList.dropWhile (· = ' ')).takeWhile Char.isDigit
    if ds.isEmpty then none else some (String.mk ds))

/-- One half of the date-range pattern:
`[0-9]{1,2} [A-Za-z]{3} [0-9]{4}`, with the greedy `{1,2}` trying two digits
before one.  Returns the remaining input on success. -/
def dateHalf (cs : List Char) : Option (List Char) :=
  let tailPart : List Char → Option (List Char) := fun r =>
    match dropLit " " r with
    | none => none
    | some r1 =>
      match takeCount Char.isAlpha 3 r1 with
      | none => none
      | some r2 =>
        match dropLit " " r2 with
        | none => none
        | some r3 => takeCount Char.isDigit 4 r3
  match takeCount Char.isDigit 2 cs with
  | some r => match tailPart r with
    | some r' => some r'
    | none => (takeCount Char.isDigit 1 cs).bind tailPart
  | none => (takeCount Char.isDigit 1 cs).bind tailPart

/-- Regex test
`[0-9]{1,2} [A-Za-z]{3} [0-9]{4} - [0-9]{1,2} [A-Za-z]{3} [0-9]{4}`,
scanning every start position as a regex engine does. -/
def dateRangeTest (t : String) : Bool :=
  t.toList.tails.any (fun cs =>
    (((dateHalf cs).bind (dropLit " - ")).bind dateHalf).isSome)

/-- Capture of `Started running on ([0-9]{1,2} [A-Za-z]{3} [0-9]{4})`:
the date text immediately following the literal. -/
def startedMatch (t : String) : Option String :=
  (afterOccs "Started running on " t).findSome? (fun rest =>
    let cs := rest.toList
    match dateHalf cs with
    | none => none
    | some r => some (String.mk (cs.take (cs.length - r.length))))

/-- Regex test `Started running on [0-9]{1,2} [A-Za-z]{3} [0-9]{4}`. -/
def startedTest (t : String) : Bool :=
  (startedMatch t).isSome

/-- Capture of `Impressions:[ ]*(.+)`, trimmed — the text after the first
occurrence whose capture is non-empty, up to the end of the line (JS `.`
excludes line terminators). -/
def impressionsMatch (t : String) : Option String :=
  (afterOccs "Impressions:" t).findSome? (fun rest =>
    let cs := (rest.toList.dropWhile (· = ' ')).takeWhile
      (fun c => c ≠ '\n' ∧ c ≠ '\r')
    if cs.isEmpty then none else some (jsTrim (String.mk cs)))

/-- Regex test `^<[0-9]+$` applied to the trimmed span text. -/
def ltCountTest (t : String) : Bool :=
  match (jsTrim t).toList with
  | '<' :: ds => !ds.isEmpty && ds.all Char.isDigit
  | _ => false

/-- The source's `images.filter(...).sort((a, b) => area(b) - area(a))[0]`:
V8 sort is stable, so this is the first element of maximal area. -/
def pickLargest (l : List DomImg) : Option DomImg :=
  l.foldl (fun best i =>
    match best with
    | none => some i
    | some b =>
      if b.naturalWidth * b.naturalHeight < i.naturalWidth * i.naturalHeight
      then some i else best) none

/-- The per-card body of `extractAdsFromDom` (lines 135-193): zero or one
emitted record. -/
def extractCard (card : DomCard) : List ScrapedAd :=
  match matchLibraryId ((card.metaSpans.head?).getD "") with
  | none => []
  | some libraryId =>
    let dates : Option String × Option String :=
      match card.metaSpans.find? dateRangeTest with
      | some t =>
        match splitOnS t " - " with
        | [a, b] => (some (jsTrim a), some (jsTrim b))
        | _ => (none, none)
      | none =>
        match card.metaSpans.find? startedTest with
        | some t => (startedMatch t, none)
        | none => (none, none)
    let lowImpressionCount :=
      card.allSpans.any (fun s => jsTrim s = "Low impression count")
    let imps0 : Option String :=
      match card.allSpans.find? (fun s => containsStr s "Impressions:") with
      | some t => impressionsMatch t
      | none => none
    let impressions : Option String :=
      if truthy imps0 then imps0
      else (card.allSpans.find? ltCountTest).map jsTrim
    let base : ScrapedAd :=
      { libraryId := libraryId, assetType := AssetType.image,
        assetUrl := none, thumbnailUrl := none,
        startDate := dates.1, endDate := dates.2,
        lowImpressionCount := lowImpressionCount, impressions := impressions }
    match card.video with
    | some v =>
      if !v.src.isEmpty then
        [{ base with
            assetType := AssetType.video, assetUrl := some v.src,
            thumbnailUrl := if v.poster.isEmpty then none else some v.poster }]
      else
        match pickLargest (card.imgs.filter
            (fun i => !i.src.isEmpty && !containsStr i.src "data:")) with
        | some img =>
          if !img.src.isEmpty then [{ base with assetUrl := some img.src }]
          else []
        | none => []
    | none =>
      match pickLargest (card.imgs.filter
          (fun i => !i.src.isEmpty && !containsStr i.src "data:")) with
      | some img =>
        if !img.src.isEmpty then [{ base with assetUrl := some img.src }]
        else []
      | none => []

/-- `extractAdsFromDom`: fold `extractCard` over the ad-card containers in
document order. -/
def extractAdsFromDom (cards : List DomCard) : List ScrapedAd :=
  (cards.map extractCard).flatten

example :
    extractAdsFromDom
      [{ metaSpans := ["Library ID: 123", "3 Jan 2024 - 10 Feb 2024"],
         allSpans := [], video := some { src := "v.mp4", poster := "" },
         imgs := [] }] =
      [{ libraryId := "123", assetType := AssetType.video,
         assetUrl := some "v.mp4", thumbnailUrl := none,
         startDate := some "3 Jan 2024", endDate := some "10 Feb 2024",
         lowImpressionCount := false, impressions := none }] := by
  decide

-- --- GraphQL traffic capture and token extraction (scrapeV3, lines 656-916) ---

/-- One captured `/api/graphql` exchange (`GraphQLCapture`): request body,
response snippet (both size-capped by the listener) and status. -/
structure GraphQLCapture where
  reqBody : String
  respSnippet : String
  status : Nat
deriving DecidableEq, Repr

/-- The result of the in-page `fetch` of one direct API page
(`{ ok, status, body }` returned by the `page.evaluate` wrapper). -/
structure ApiFetchResult where
  ok : Bool
  status : Nat
  body : String
deriving DecidableEq, Repr

/-- `URLSearchParams(body).get(key)`: split the form-encoded body on `&`,
each pair at its first `=`; first matching key wins; a pair without `=` has
value `""`.  (Percent-decoding is elided: the token fields the source reads
are opaque percent-free strings.) -/
def formGet (body key : String) : Option String :=
  (splitOnS body "&").findSome? (fun pair =>
    match splitOnS pair "=" with
    | [] => none
    | k :: rest =>
      if k = key then
        some (String.mk (joinSep ['='] (rest.map String.toList)))
      else none)

/-- Capture of the regex `"key"\s*:\s*"([^"]+)"` (first match wins). -/
def jsonField (key s : String) : Option String :=
  (afterOccs ("\"" ++ key ++ "\"") s).findSome? (fun rest =>
    match rest.toList.dropWhile Char.isWhitespace with
    | ':' :: cs1 =>
      match cs1.dropWhile Char.isWhitespace with
      | '"' :: cs2 =>
        let v := cs2.takeWhile (· ≠ '"')
        if v.isEmpty then none
        else
          match cs2.drop v.length with
          | '"' :: _ => some (String.mk v)
          | _ => none
      | _ => none
    | _ => none)

/-- Capture of the regex `"key"\s*:\s*(true|false)`. -/
def boolField (key s : String) : Option String :=
  (afterOccs ("\"" ++ key ++ "\"") s).findSome? (fun rest =>
    match rest.toList.dropWhile Char.isWhitespace with
    | ':' :: cs1 =>
      let cs2 := cs1.dropWhile Char.isWhitespace
      if "true".toList.isPrefixOf cs2 then some "true"
      else if "false".toList.isPrefixOf cs2 then some "false"
      else none
    | _ => none)

def digitsToNat (ds : List Char) : Nat :=
  ds.foldl (fun n c => 10 * n + (c.toNat - 48)) 0

/-- Capture of the regex `"key"\s*:\s*(\d+)` as a number (`parseInt`). -/
def numField (key s : String) : Option Nat :=
  (afterOccs ("\"" ++ key ++ "\"") s).findSome? (fun rest =>
    match rest.toList.dropWhile Char.isWhitespace with
    | ':' :: cs1 =>
      let ds := (cs1.dropWhile Char.isWhitespace).takeWhile Char.isDigit
      if ds.isEmpty then none else some (digitsToNat ds)
    | _ => none)

/-- Tokens mined from the captured GraphQL request bodies (step A of the
direct-API fallback, lines 847-876). -/
structure TokenDeriv where
  trafficDocId : Option String
  trafficDtsg : Option String
  trafficLsd : Option String
  adQueryDocId : Option String
deriving DecidableEq, Repr

/-- Step A: fold over the captured traffic.  `doc_id`, `fb_dtsg` and `lsd`
keep the first truthy value; the ad-query `doc_id` is (re)assigned by each
capture whose variables mention the page-id key or whose response carries
ad markers. -/
def deriveTokens (traffic : List GraphQLCapture) : TokenDeriv :=
  traffic.foldl
    (fun st t =>
      let docId := formGet t.reqBody "doc_id"
      let dtsg := formGet t.reqBody "fb_dtsg"
      let lsd := formGet t.reqBody "lsd"
      let vars := formGet t.reqBody "variables"
      let st :=
        { st with
          trafficDocId :=
            if truthy docId && !truthy st.trafficDocId then docId
            else st.trafficDocId
          trafficDtsg :=
            if truthy dtsg && !truthy st.trafficDtsg then dtsg
            else st.trafficDtsg
          trafficLsd :=
            if truthy lsd && !truthy st.trafficLsd then lsd
            else st.trafficLsd }
      let st :=
        match vars with
        | some v =>
          if truthy vars &&
              (containsStr v "viewAllPageID" || containsStr v "view_all_page_id")
          then { st with adQueryDocId := docId }
          else st
        | none => st
      if (containsStr t.respSnippet "ad_archive_id" ||
          containsStr t.respSnippet "library_id" ||
          containsStr t.respSnippet "forward_cursor") && truthy docId then
        { st with adQueryDocId := docId }
      else st)
    { trafficDocId := none, trafficDtsg := none, trafficLsd := none,
      adQueryDocId := none }

/-- Pagination markers mined from the page's embedded script text
(step B, lines 878-897). -/
structure PageTokens where
  forwardCursor : Option String
  endCursor : Option String
  hasNextPage : Option String
  collationToken : Option String
  sessionId : Option String
deriving DecidableEq, Repr

def pageTokens (allText : String) : PageTokens :=
  { forwardCursor := jsonField "forward_cursor" allText
    endCursor := jsonField "end_cursor" allText
    hasNextPage := boolField "has_next_page" allText
    collationToken := jsonField "collation_token" allText
    sessionId := jsonField "session_id" allText }

-- --- Direct-API response parsing (lines 990-1047) ---

/-- Strip the anti-JSON-hijacking prefix: regex `^for \(;;\);`. -/
def stripForPrefix (s : String) : String :=
  if "for (;;);".toList.isPrefixOf s.toList then s.drop 9 else s

/-- The tail of one match of
`"(?:ad_archive_id|library_id)"\s*:\s*"?(\d+)"?` after its literal part:
whitespace, colon, whitespace, optional quote, the digit capture, optional
closing quote.  Returns the capture and the rest of the input after the
whole match. -/
def idPatTail (cs : List Char) : Option (String × List Char) :=
  match cs.dropWhile Char.isWhitespace with
  | ':' :: cs1 =>
    let cs2 := cs1.dropWhile Char.isWhitespace
    let cs3 := match cs2 with | '"' :: r => r | _ => cs2
    let ds := cs3.takeWhile Char.isDigit
    if ds.isEmpty then none
    else
      let cs4 := cs3.drop ds.length
      let cs5 := match cs4 with | '"' :: r => r | _ => cs4
      some (String.mk ds, cs5)
  | _ => none

def idPatAt (cs : List Char) : Option (String × List Char) :=
  match dropLit "\"ad_archive_id\"" cs with
  | some r => idPatTail r
  | none =>
    match dropLit "\"library_id\"" cs with
    | some r => idPatTail r
    | none => none

/-- `matchAll` of the ad-identifier pattern: scan left to right, restarting
after each match.  Each step consumes at least one character, so the fuel
(input length) never runs out. -/
def scanIdsAux : Nat → List Char → List String
  | 0, _ => []
  | _, [] => []
  | fuel + 1, c :: rest =>
    match idPatAt (c :: rest) with
    | some (d, rest') => d :: scanIdsAux fuel rest'
    | none => scanIdsAux fuel rest

def scanIds (s : String) : List String :=
  scanIdsAux s.length s.toList

/-- JS `s.replace(/\\\//g, '/')`. -/
def unescapeSlashes (s : String) : String :=
  String.mk (joinSep ['/'] (splitOnL ['\\', '/'] s.toList))

/-- JS `s.indexOf(pat)` (character index, `-1` when absent). -/
def indexOfStr (s pat : String) : Int :=
  match splitOnS s pat with
  | p :: _ :: _ => (p.length : Int)
  | _ => -1

def monthName : Nat → String
  | 1 => "Jan" | 2 => "Feb" | 3 => "Mar" | 4 => "Apr"
  | 5 => "May" | 6 => "Jun" | 7 => "Jul" | 8 => "Aug"
  | 9 => "Sep" | 10 => "Oct" | 11 => "Nov" | 12 => "Dec"
  | _ => ""

/-- `new Date(epochSecs * 1000)` rendered as
``${getDate()} ${toLocaleString('en-US', { month: 'short' })} ${getFullYear()}``
(the server container runs in UTC, so local time is UTC).  Standard
civil-from-days conversion. -/
def formatEpochDate (secs : Nat) : String :=
  let days := secs / 86400
  let z := days + 719468
  let era := z / 146097
  let doe := z % 146097
  let yoe := (doe - doe / 1460 + doe / 36524 - doe / 146096) / 365
  let y := yoe + era * 400
  let doy := doe - (365 * yoe + yoe / 4 - yoe / 100)
  let mp := (5 * doy + 2) / 153
  let d := doy - (153 * mp + 2) / 5 + 1
  let m := if mp < 10 then mp + 3 else mp - 9
  let y2 := if m ≤ 2 then y + 1 else y
  toString d ++ " " ++ monthName m ++ " " ++ toString y2

/-- The text window around the identifier's first occurrence
(`bodyStr.substring(Math.max(0, idx - 500), Math.min(len, idx + 2000))`,
lines 1014-1017). -/
def apiRegion (bodyStr adId : String) : String :=
  let idx : Int := indexOfStr bodyStr adId
  let lo : Nat := (max 0 (idx - 500)).toNat
  let hi : Nat := (min (bodyStr.length : Int) (idx + 2000)).toNat
  String.mk ((bodyStr.toList.drop lo).take (hi - lo))

/-- The per-identifier record builder of the API path (lines 1013-1046):
cut a text window around the identifier's first occurrence, extract a start
date and a media URL by priority, and emit a sparse record. -/
def buildApiAd (bodyStr : String) (adId : String) : ScrapedAd :=
  let adRegion := apiRegion bodyStr adId
  let startDate := (numField "start_date" adRegion).map formatEpochDate
  let snapshotMatch := jsonField "snapshot_url" adRegion
  let imageMatch :=
    jsOr (jsonField "resized_image_url" adRegion)
      (jsonField "original_image_url" adRegion)
  let videoMatch :=
    jsOr (jsonField "video_hd_url" adRegion)
      (jsonField "video_sd_url" adRegion)
  let assetUrl : Option String :=
    match videoMatch with
    | some v => some (unescapeSlashes v)
    | none =>
      let u := unescapeSlashes ((jsOr imageMatch snapshotMatch).getD "")
      if u.isEmpty then none else some u
  { libraryId := adId
    assetType :=
      if videoMatch.isSome then AssetType.video else AssetType.image
    assetUrl := assetUrl
    thumbnailUrl := none
    startDate := startDate
    endDate := none
    lowImpressionCount := false
    impressions := none }

example : formatEpochDate 1704067200 = "1 Jan 2024" := by decide
example : scanIds "x\x7b\"library_id\":\"777\",\"ad_archive_id\":777\x7d" =
    ["777", "777"] := by decide
example : formGet "doc_id=9&fb_dtsg=t%3D1" "fb_dtsg" = some "t%3D1" := by
  decide

-- --- Scroll-loop state machine ---

/-- The mutable loop variables of the scroll loops
(`collectedAds`, `staleScrollCount`, `previousAdCount`, `scrollIteration`)
plus the diagnostics accumulated so far. -/
structure LoopState where
  collected : List ScrapedAd
  stale : Nat
  prev : Nat
  iter : Nat
  diags : List Diag
deriving DecidableEq, Repr

inductive ExitReason where
  | limitReached
  | timeout
  | staleStop
  | switchApi
  | fuelOut
deriving DecidableEq, Repr

/-- Environment of one `scrape` / `scrapeV2` run.  `thrown` is the message
of an exception raised anywhere inside the `try` block (navigation failure,
launch failure, evaluation failure, ...), `none` when nothing throws;
`domCards` gives the ad-card containers present when `extractAdsFromDom`
runs in scroll iteration `i`; `clock` is `Date.now() - startTime` at the
loop-top budget check of iteration `i`; `responses` are the (status, url)
pairs seen by the response listener; `partialDiags` are the diagnostics
already pushed when an exception is raised. -/
structure EnvRun where
  thrown : Option String
  partialDiags : List Diag
  domCards : Nat → List DomCard
  clock : Nat → Nat
  advertiser : Option String
  responses : List (Nat × String)
  consoleErrors : List String
  finalDuration : Nat

/-- `page.on('response')`: a 403 status appends `403: <url truncated>`. -/
def blockedOf (responses : List (Nat × String)) : List String :=
  (responses.filter (fun r => r.1 == 403)).map
    (fun r => "403: " ++ r.2.take 200)

/-- The scroll loop shared by `scrape` (lines 260-313) and `scrapeV2`
(lines 558-615); the two loops differ only in scrolling mechanics and in
which diagnostic snapshots (`staleDiags`) the first stale iteration pushes,
neither of which affects the state logic.  One fuel unit per iteration. -/
def scrollLoopBasicGo (env : EnvRun) (staleDiags : List Diag) (limit : Nat) :
    Nat → LoopState → LoopState × ExitReason
  | 0, s => (s, ExitReason.fuelOut)
  | fuel + 1, s =>
    if limit ≤ s.collected.length then (s, ExitReason.limitReached)
    else if DEFAULT_TIMEOUT_MS < env.clock s.iter then (s, ExitReason.timeout)
    else
      let iter := s.iter + 1
      let collected := extractAdsFromDom (env.domCards iter)
      if collected.length = s.prev then
        let stale := s.stale + 1
        let diags := if stale = 1 then s.diags ++ staleDiags else s.diags
        if MAX_STALE_SCROLLS ≤ stale then
          ({ collected := collected, stale := stale, prev := s.prev,
             iter := iter, diags := diags }, ExitReason.staleStop)
        else
          scrollLoopBasicGo env staleDiags limit fuel
            { collected := collected, stale := stale,
              prev := collected.length, iter := iter, diags := diags }
      else
        scrollLoopBasicGo env staleDiags limit fuel
          { collected := collected, stale := 0, prev := collected.length,
            iter := iter, diags := s.diags }

/-- Environment of one `scrapeV3` run.  As `EnvRun`, plus: `domCards 0` is
the page content at the initial extraction before the loop; `apiClock` is
the budget check inside the API-pagination loop before fetching page
`n + 1`; `graphqlTraffic` the captured `/api/graphql` exchanges;
`scriptsText` the concatenated embedded script text; `apiFetch n` the
outcome of the in-page fetch of API page `n` (1-based). -/
structure EnvV3 where
  thrown : Option String
  partialDiags : List Diag
  domCards : Nat → List DomCard
  scrollClock : Nat → Nat
  apiClock : Nat → Nat
  advertiser : Option String
  responses : List (Nat × String)
  consoleErrors : List String
  pageErrors : List String
  graphqlTraffic : List GraphQLCapture
  scriptsText : String
  apiFetch : Nat → ApiFetchResult
  finalDuration : Nat

/-- The `scrapeV3` scroll loop (lines 787-839): as the basic loop, plus the
early switch to the direct-API approach after 3 stale scrolls when at most
30 records are collected. -/
def scrollLoopV3Go (env : EnvV3) (limit : Nat) :
    Nat → LoopState → LoopState × ExitReason
  | 0, s => (s, ExitReason.fuelOut)
  | fuel + 1, s =>
    if limit ≤ s.collected.length then (s, ExitReason.limitReached)
    else if DEFAULT_TIMEOUT_MS < env.scrollClock s.iter then
      (s, ExitReason.timeout)
    else
      let iter := s.iter + 1
      let collected := extractAdsFromDom (env.domCards iter)
      if collected.length = s.prev then
        let stale := s.stale + 1
        let diags :=
          if stale = 1 then s.diags ++ [Diag.labeled "v3-first-stale"]
          else s.diags
        if 3 ≤ stale ∧ collected.length ≤ 30 then
          ({ collected := collected, stale := stale, prev := s.prev,
             iter := iter, diags := diags }, ExitReason.switchApi)
        else if MAX_STALE_SCROLLS ≤ stale then
          ({ collected := collected, stale := stale, prev := s.prev,
             iter := iter, diags := diags }, ExitReason.staleStop)
        else
          scrollLoopV3Go env limit fuel
            { collected := collected, stale := stale,
              prev := collected.length, iter := iter, diags := diags }
      else
        scrollLoopV3Go env limit fuel
          { collected := collected, stale := 0, prev := collected.length,
            iter := iter, diags := s.diags }

inductive ApiExit where
  | condFail
  | timeout
  | fetchFail
  | noData
  | noCursor
  | fuelOut
deriving DecidableEq, Repr

structure ApiLoopOut where
  apiAds : List ScrapedAd
  diags : List Diag
  calls : Nat
  exit : ApiExit
deriving DecidableEq, Repr

/-- The direct-API pagination loop (lines 914-1069).  `calls` counts pages
fetched.  The structural bound is `apiPage < 50`; the loop is started with
fuel 51 so the fuel never binds. -/
def apiLoop (env : EnvV3) (limit : Nat) (collected : List ScrapedAd) :
    Nat → Nat → Option String → List ScrapedAd → List Diag → ApiLoopOut
  | 0, apiPage, _, apiAds, diags =>
    { apiAds := apiAds, diags := diags, calls := apiPage,
      exit := ApiExit.fuelOut }
  | fuel + 1, apiPage, cur, apiAds, diags =>
    if ¬(collected.length + apiAds.length < limit ∧ truthy cur = true ∧
        apiPage < 50) then
      { apiAds := apiAds, diags := diags, calls := apiPage,
        exit := ApiExit.condFail }
    else if DEFAULT_TIMEOUT_MS < env.apiClock apiPage then
      { apiAds := apiAds, diags := diags, calls := apiPage,
        exit := ApiExit.timeout }
    else
      let p := apiPage + 1
      let res := env.apiFetch p
      if ¬res.ok ∨ res.status ≠ 200 then
        { apiAds := apiAds, diags := diags ++ [Diag.apiFail p res.status],
          calls := p, exit := ApiExit.fetchFail }
      else
        let bodyStr := stripForPrefix res.body
        let nextCursor :=
          jsOr (jsonField "forward_cursor" bodyStr)
            (jsonField "end_cursor" bodyStr)
        let hasAdData :=
          containsStr bodyStr "ad_archive_id" ||
            containsStr bodyStr "library_id"
        if hasAdData then
          let uniqueIds := firstWins (scanIds bodyStr)
          let apiAds' := uniqueIds.foldl
            (fun acc adId =>
              if collected.any (fun a => a.libraryId == adId) ||
                  acc.any (fun a => a.libraryId == adId) then acc
              else acc ++ [buildApiAd bodyStr adId]) apiAds
          if truthy nextCursor then
            apiLoop env limit collected fuel p nextCursor apiAds' diags
          else
            { apiAds := apiAds', diags := diags, calls := p,
              exit := ApiExit.noCursor }
        else
          { apiAds := apiAds, diags := diags ++ [Diag.apiNoData p],
            calls := p, exit := ApiExit.noData }

structure FallbackOut where
  apiAds : List ScrapedAd
  diags : List Diag
  calls : Nat
deriving DecidableEq, Repr

/-- Phase 5 of `scrapeV3` (lines 842-1088): derive the tokens, then either
run the direct-API pagination loop (all three tokens truthy) or record the
missing-token diagnostic and make no API call. -/
def fallbackPhase (env : EnvV3) (limit : Nat) (collected : List ScrapedAd) :
    FallbackOut :=
  let tk := deriveTokens env.graphqlTraffic
  let ps := pageTokens env.scriptsText
  let cursor := jsOr ps.forwardCursor ps.endCursor
  let finalDocId := jsOr tk.adQueryDocId tk.trafficDocId
  let finalDtsg := tk.trafficDtsg
  let baseDiags : List Diag :=
    [Diag.tokens tk.trafficDocId tk.adQueryDocId (truthy finalDtsg)
        (truthy tk.trafficLsd) ps.forwardCursor ps.endCursor ps.hasNextPage
        ps.collationToken ps.sessionId,
      Diag.graphqlTrafficDump]
  if truthy cursor && truthy finalDtsg && truthy finalDocId then
    let out := apiLoop env limit collected 51 0 cursor [] []
    { apiAds := out.apiAds, diags := baseDiags ++ out.diags,
      calls := out.calls }
  else
    { apiAds := [],
      diags := baseDiags ++
        [Diag.missingTokens (truthy cursor) (truthy finalDtsg)
          (truthy finalDocId)],
      calls := 0 }

-- --- The three scrape operations ---

/-- `scrape(facebookPageId, adLimit)` (lines 199-351).  The page id only
feeds URL construction, which the environment abstracts.  The `catch`
branch (lines 334-347) returns the failure result; the success branch
truncates the collected records to the effective limit. -/
def scrape (fuel : Nat) (env : EnvRun) (adLimit : Int) : ScrapeResult :=
  match env.thrown with
  | some msg =>
    { success := false, ads := [], totalFound := 0, errors := [msg],
      durationMs := env.finalDuration, advertiserName := none,
      diagnostics := env.partialDiags,
      blockedRequests := blockedOf env.responses,
      consoleErrors := env.consoleErrors }
  | none =>
    let limit := (effectiveLimit adLimit).toNat
    let s0 : LoopState :=
      { collected := [], stale := 0, prev := 0, iter := 0,
        diags := [Diag.labeled "after-initial-load"] }
    let out := scrollLoopBasicGo env [Diag.labeled "first-stale-scroll"]
      limit fuel s0
    let ads := out.1.collected.take limit
    { success := true, ads := ads, totalFound := ads.length, errors := [],
      durationMs := env.finalDuration, advertiserName := env.advertiser,
      diagnostics := out.1.diags ++ [Diag.labeled "after-scrape-complete"],
      blockedRequests := blockedOf env.responses,
      consoleErrors := env.consoleErrors }

/-- `scrapeV2(facebookPageId, adLimit)` (lines 457-652): same state logic
as `scrape` with different navigation/scrolling mechanics and diagnostic
labels. -/
def scrapeV2 (fuel : Nat) (env : EnvRun) (adLimit : Int) : ScrapeResult :=
  match env.thrown with
  | some msg =>
    { success := false, ads := [], totalFound := 0, errors := [msg],
      durationMs := env.finalDuration, advertiserName := none,
      diagnostics := env.partialDiags,
      blockedRequests := blockedOf env.responses,
      consoleErrors := env.consoleErrors }
  | none =>
    let limit := (effectiveLimit adLimit).toNat
    let s0 : LoopState :=
      { collected := [], stale := 0, prev := 0, iter := 0,
        diags := [Diag.labeled "v2-after-load",
          Diag.labeled "v2-initial-network", Diag.labeled "v2-js-state"] }
    let out := scrollLoopBasicGo env
      [Diag.labeled "v2-first-stale", Diag.labeled "v2-stale-network"]
      limit fuel s0
    let ads := out.1.collected.take limit
    { success := true, ads := ads, totalFound := ads.length, errors := [],
      durationMs := env.finalDuration, advertiserName := env.advertiser,
      diagnostics := out.1.diags ++
        [Diag.labeled "v2-complete", Diag.labeled "v2-final-network"],
      blockedRequests := blockedOf env.responses,
      consoleErrors := env.consoleErrors }

/-- Initial `scrapeV3` loop state: the extraction before the loop seeds
`collectedAds` and `previousAdCount` (lines 780-785). -/
def v3InitState (env : EnvV3) : LoopState :=
  let initAds := extractAdsFromDom (env.domCards 0)
  { collected := initAds, stale := 0, prev := initAds.length, iter := 0,
    diags := [Diag.labeled "v3-after-hydration"] }

/-- `scrapeV3(facebookPageId, adLimit)` (lines 662-1129): hydration-aware
scroll loop, conditional direct-API fallback
(`collectedAds.length < limit && collectedAds.length <= 30`), merge by
concatenation, truncation to the effective limit. -/
def scrapeV3 (fuel : Nat) (env : EnvV3) (adLimit : Int) : ScrapeResult :=
  match env.thrown with
  | some msg =>
    { success := false, ads := [], totalFound := 0, errors := [msg],
      durationMs := env.finalDuration, advertiserName := none,
      diagnostics := env.partialDiags,
      blockedRequests := blockedOf env.responses,
      consoleErrors := env.consoleErrors }
  | none =>
    let limit := (effectiveLimit adLimit).toNat
    let out := scrollLoopV3Go env limit fuel (v3InitState env)
    let s := out.1
    let merged :=
      if s.collected.length < limit ∧ s.collected.length ≤ 30 then
        let fb := fallbackPhase env limit s.collected
        (s.collected ++ fb.apiAds, s.diags ++ fb.diags)
      else (s.collected, s.diags)
    let ads := merged.1.take limit
    { success := true, ads := ads, totalFound := ads.length, errors := [],
      durationMs := env.finalDuration, advertiserName := env.advertiser,
      diagnostics := merged.2 ++ [Diag.labeled "v3-complete"] ++
        (if env.pageErrors.isEmpty then []
         else [Diag.pageErrors env.pageErrors]),
      blockedRequests := blockedOf env.responses,
      consoleErrors := env.consoleErrors }

-- --- The merge/dedup mechanism as a standalone contract ---

/-- One step of the API-record dedup (line 1011 plus the push at
lines 1037-1046): a candidate record is dropped when its `libraryId`
already occurs in the DOM-derived records or among the API records
accumulated so far, otherwise appended.  `buildApiAd` gives the candidate
the identifier that the source checks before building, so checking the
built record is the same test. -/
def mergeStep (dom : List ScrapedAd) (acc : List ScrapedAd)
    (a : ScrapedAd) : List ScrapedAd :=
  if dom.any (fun b => b.libraryId == a.libraryId) ||
      acc.any (fun b => b.libraryId == a.libraryId) then acc
  else acc ++ [a]

def mergeApi (dom api : List ScrapedAd) : List ScrapedAd :=
  api.foldl (mergeStep dom) []

/-- `merge(domRecords, apiRecords)`: DOM records first in order, then the
API records surviving the dedup (`collectedAds = [...collectedAds,
...apiAds]`, line 1073). -/
def mergeAds (dom api : List ScrapedAd) : List ScrapedAd :=
  dom ++ mergeApi dom api

-- --- Sample records and environments used in concrete scenarios ---

def adA : ScrapedAd :=
  { libraryId := "1001", assetType := AssetType.image,
    assetUrl := some "http://cdn/a.png", thumbnailUrl := none,
    startDate := none, endDate := none, lowImpressionCount := false,
    impressions := none }

def adB : ScrapedAd :=
  { libraryId := "1002", assetType := AssetType.video,
    assetUrl := some "http://cdn/b.mp4", thumbnailUrl := some "http://cdn/b.jpg",
    startDate := some "3 Jan 2024", endDate := some "10 Feb 2024",
    lowImpressionCount := false, impressions := some "10K-50K" }

/-- An API-derived duplicate of `adB`: same identifier, sparser fields. -/
def adBApi : ScrapedAd :=
  { libraryId := "1002", assetType := AssetType.image,
    assetUrl := some "http://cdn/b2.png", thumbnailUrl := none,
    startDate := some "5 Jan 2024", endDate := none,
    lowImpressionCount := false, impressions := none }

def adC : ScrapedAd :=
  { libraryId := "1003", assetType := AssetType.image,
    assetUrl := some "http://cdn/c.png", thumbnailUrl := none,
    startDate := none, endDate := none, lowImpressionCount := false,
    impressions := none }

def envRunBase : EnvRun :=
  { thrown := none, partialDiags := [], domCards := fun _ => [],
    clock := fun _ => 0, advertiser := none, responses := [],
    consoleErrors := [], finalDuration := 0 }

def envV3Base : EnvV3 :=
  { thrown := none, partialDiags := [], domCards := fun _ => [],
    scrollClock := fun _ => 0, apiClock := fun _ => 0, advertiser := none,
    responses := [], consoleErrors := [], pageErrors := [],
    graphqlTraffic := [], scriptsText := "",
    apiFetch := fun _ => { ok := false, status := 0, body := "" },
    finalDuration := 0 }

-- --- Claim C1 ---

/-- Claim C1: for every integer `adLimit`, the effective limit used by
`scrape`, `scrapeV2` and `scrapeV3` is `clamp(adLimit, 10, 1000)` — it is
`adLimit` on `[10, 1000]`, `10` below, `1000` above — and the final `ads`
sequence of the returned result never exceeds it. -/
theorem clamp_law (adLimit : Int) :
    (adLimit < 10 → effectiveLimit adLimit = 10) ∧
    (10 ≤ adLimit → adLimit ≤ 1000 → effectiveLimit adLimit = adLimit) ∧
    (1000 < adLimit → effectiveLimit adLimit = 1000) ∧
    (∀ fuel env,
      (scrape fuel env adLimit).ads.length ≤ (effectiveLimit adLimit).toNat) ∧
    (∀ fuel env,
      (scrapeV2 fuel env adLimit).ads.length ≤ (effectiveLimit adLimit).toNat) ∧
    (∀ fuel env,
      (scrapeV3 fuel env adLimit).ads.length ≤ (effectiveLimit adLimit).toNat) := by
  refine ⟨?_, ?_, ?_, ?_, ?_, ?_⟩
  · intro h
    simp only [effectiveLimit, MIN_ADS, MAX_ADS]
    omega
  · intro h1 h2
    simp only [effectiveLimit, MIN_ADS, MAX_ADS]
    omega
  · intro h
    simp only [effectiveLimit, MIN_ADS, MAX_ADS]
    omega
  · intro fuel env
    rcases henv : env.thrown with _ | msg <;>
      simp [scrape, henv, List.length_take]
  · intro fuel env
    rcases henv : env.thrown with _ | msg <;>
      simp [scrapeV2, henv, List.length_take]
  · intro fuel env
    rcases henv : env.thrown with _ | msg <;>
      simp [scrapeV3, henv, List.length_take]

theorem clamp_law_witness :
    effectiveLimit 5 = 10 ∧ effectiveLimit 400 = 400 ∧
    effectiveLimit 2000 = 1000 ∧
    (scrapeV3 0 envV3Base 5).ads.length ≤ (effectiveLimit 5).toNat :=
  ⟨(clamp_law 5).1 (by decide), (clamp_law 400).2.1 (by decide) (by decide),
    (clamp_law 2000).2.2.1 (by decide),
    (clamp_law 5).2.2.2.2.2 0 envV3Base⟩

-- --- Claim C10 ---

/-- Claim C10: in every result of every scrape operation, `totalFound`
equals the length of the returned `ads` sequence (the post-truncation
count), and every failure result has `totalFound = 0` and `ads = []`. -/
theorem totalFound_eq_ads_length (fuel : Nat) (envA envB : EnvRun)
    (envC : EnvV3) (adLimit : Int) :
    ((scrape fuel envA adLimit).totalFound =
      (scrape fuel envA adLimit).ads.length) ∧
    ((scrapeV2 fuel envB adLimit).totalFound =
      (scrapeV2 fuel envB adLimit).ads.length) ∧
    ((scrapeV3 fuel envC adLimit).totalFound =
      (scrapeV3 fuel envC adLimit).ads.length) ∧
    ((scrape fuel envA adLimit).success = false →
      (scrape fuel envA adLimit).totalFound = 0 ∧
      (scrape fuel envA adLimit).ads = []) ∧
    ((scrapeV2 fuel envB adLimit).success = false →
      (scrapeV2 fuel envB adLimit).totalFound = 0 ∧
      (scrapeV2 fuel envB adLimit).ads = []) ∧
    ((scrapeV3 fuel envC adLimit).success = false →
      (scrapeV3 fuel envC adLimit).totalFound = 0 ∧
      (scrapeV3 fuel envC adLimit).ads = []) := by
  refine ⟨?_, ?_, ?_, ?_, ?_, ?_⟩
  · rcases h : envA.thrown with _ | msg <;> simp [scrape, h]
  · rcases h : envB.thrown with _ | msg <;> simp [scrapeV2, h]
  · rcases h : envC.thrown with _ | msg <;> simp [scrapeV3, h]
  · rcases h : envA.thrown with _ | msg <;> simp [scrape, h]
  · rcases h : envB.thrown with _ | msg <;> simp [scrapeV2, h]
  · rcases h : envC.thrown with _ | msg <;> simp [scrapeV3, h]

def envRunFail : EnvRun :=
  { envRunBase with thrown := some "net::ERR_TIMED_OUT" }

def envV3Fail : EnvV3 :=
  { envV3Base with thrown := some "net::ERR_TIMED_OUT" }

theorem totalFound_eq_ads_length_witness :
    (scrapeV3 0 envV3Fail 400).totalFound = 0 ∧
    (scrapeV3 0 envV3Fail 400).ads = [] :=
  (totalFound_eq_ads_length 0 envRunFail envRunFail envV3Fail 400).2.2.2.2.2
    (by decide)

-- --- Claim C7 ---

/-- A run whose initial document load answers HTTP 403.  Playwright's
`page.goto` resolves normally on HTTP error statuses (it rejects only on
network failure or timeout), so nothing throws; the 403 is seen by the
response listener. -/
def env403 : EnvV3 :=
  { envV3Base with
    responses := [(403, "https://www.facebook.com/ads/library/")] }

/-- Claim C7 counterexample: on a run whose initial document load returns
HTTP 403 (and which renders no ads), `scrapeV3` returns `success = true`
with an empty `errors` list — not `success = false` with one error as the
claim states; the 403 is recorded in `blockedRequests` instead. -/
theorem http403_counterexample :
    (scrapeV3 20 env403 400).success = true ∧
    (scrapeV3 20 env403 400).errors = [] ∧
    (scrapeV3 20 env403 400).ads = [] ∧
    (scrapeV3 20 env403 400).blockedRequests =
      ["403: https://www.facebook.com/ads/library/"] := by
  decide

/-- Claim C7 amended: a run returns `success = false` with exactly one
`errors` entry and empty `ads` precisely when an exception is thrown
(navigation failure or timeout); an HTTP 403 status on a response — the
initial document load included — does not abort navigation: it is recorded
as a `403: <url>` marker in `blockedRequests` and the run otherwise
proceeds to a success result. -/
theorem http403_amended :
    (∀ fuel (env : EnvV3) adLimit msg, env.thrown = some msg →
      (scrapeV3 fuel env adLimit).success = false ∧
      (scrapeV3 fuel env adLimit).errors = [msg] ∧
      (scrapeV3 fuel env adLimit).ads = []) ∧
    (∀ fuel (env : EnvV3) adLimit st url, env.thrown = none →
      (st, url) ∈ env.responses → st = 403 →
      ("403: " ++ url.take 200) ∈ (scrapeV3 fuel env adLimit).blockedRequests ∧
      (scrapeV3 fuel env adLimit).success = true) := by
  constructor
  · intro fuel env adLimit msg h
    simp [scrapeV3, h]
  · intro fuel env adLimit st url h hmem hst
    have hblocked : ("403: " ++ url.take 200) ∈ blockedOf env.responses := by
      subst hst
      simp only [blockedOf, List.mem_map]
      refine ⟨(403, url), ?_, rfl⟩
      simp [List.mem_filter, hmem]
    constructor
    · simp [scrapeV3, h, hblocked]
    · simp [scrapeV3, h]

theorem http403_amended_witness :
    (scrapeV3 0 envV3Fail 400).success = false ∧
    (scrapeV3 0 envV3Fail 400).errors = ["net::ERR_TIMED_OUT"] ∧
    (scrapeV3 0 envV3Fail 400).ads = [] :=
  http403_amended.1 0 envV3Fail 400 "net::ERR_TIMED_OUT" (by decide)

-- --- Claim C4 ---

/-- Claim C4: when the wall-clock budget expires mid-loop (in the scroll
loop or in the API-pagination loop) and nothing throws, the run still
returns `success = true` with an empty `errors` list, and its `ads` are the
records collected so far (possibly extended by the API fallback), truncated
to the effective limit — budget exhaustion is never reported as a failure. -/
theorem budget_law (fuel : Nat) (env : EnvV3) (adLimit : Int)
    (hok : env.thrown = none)
    (_ht : (scrollLoopV3Go env (effectiveLimit adLimit).toNat fuel
            (v3InitState env)).2 = ExitReason.timeout ∨
      (apiLoop env (effectiveLimit adLimit).toNat
          (scrollLoopV3Go env (effectiveLimit adLimit).toNat fuel
            (v3InitState env)).1.collected
          51 0
          (jsOr (pageTokens env.scriptsText).forwardCursor
            (pageTokens env.scriptsText).endCursor)
          [] []).exit = ApiExit.timeout) :
    (scrapeV3 fuel env adLimit).success = true ∧
    (scrapeV3 fuel env adLimit).errors = [] ∧
    (∃ apiRecords, (scrapeV3 fuel env adLimit).ads =
      ((scrollLoopV3Go env (effectiveLimit adLimit).toNat fuel
          (v3InitState env)).1.collected ++ apiRecords).take
        (effectiveLimit adLimit).toNat) := by
  refine ⟨by simp [scrapeV3, hok], by simp [scrapeV3, hok], ?_⟩
  by_cases hc :
      ((scrollLoopV3Go env (effectiveLimit adLimit).toNat fuel
        (v3InitState env)).1.collected.length : Int) < effectiveLimit adLimit ∧
      (scrollLoopV3Go env (effectiveLimit adLimit).toNat fuel
        (v3InitState env)).1.collected.length ≤ 30
  · exact ⟨(fallbackPhase env (effectiveLimit adLimit).toNat
        (scrollLoopV3Go env (effectiveLimit adLimit).toNat fuel
          (v3InitState env)).1.collected).apiAds,
      by simp [scrapeV3, hok, hc]⟩
  · exact ⟨[], by simp [scrapeV3, hok, hc]⟩

def envV3Timeout : EnvV3 :=
  { envV3Base with scrollClock := fun _ => DEFAULT_TIMEOUT_MS + 1 }

theorem budget_law_witness :
    (scrapeV3 5 envV3Timeout 400).success = true ∧
    (scrapeV3 5 envV3Timeout 400).errors = [] :=
  ⟨(budget_law 5 envV3Timeout 400 (by decide) (Or.inl (by decide))).1,
    (budget_law 5 envV3Timeout 400 (by decide) (Or.inl (by decide))).2.1⟩

-- --- Claim C5 ---

/-- Claim C5: when any of the three required tokens (pagination cursor,
anti-CSRF token `fb_dtsg`, query identifier `doc_id`) is missing after
token extraction, the direct-API fallback makes no API call at all
(`calls = 0`, no API records), appends the diagnostic naming which of the
three are present/missing, and the run still finishes successfully. -/
theorem fallback_precondition (env : EnvV3) (limit : Nat)
    (collected : List ScrapedAd)
    (hmiss :
      (truthy (jsOr (pageTokens env.scriptsText).forwardCursor
          (pageTokens env.scriptsText).endCursor) &&
        truthy (deriveTokens env.graphqlTraffic).trafficDtsg &&
        truthy (jsOr (deriveTokens env.graphqlTraffic).adQueryDocId
          (deriveTokens env.graphqlTraffic).trafficDocId)) = false) :
    (fallbackPhase env limit collected).calls = 0 ∧
    (fallbackPhase env limit collected).apiAds = [] ∧
    Diag.missingTokens
        (truthy (jsOr (pageTokens env.scriptsText).forwardCursor
          (pageTokens env.scriptsText).endCursor))
        (truthy (deriveTokens env.graphqlTraffic).trafficDtsg)
        (truthy (jsOr (deriveTokens env.graphqlTraffic).adQueryDocId
          (deriveTokens env.graphqlTraffic).trafficDocId))
      ∈ (fallbackPhase env limit collected).diags ∧
    (∀ fuel adLimit, env.thrown = none →
      (scrapeV3 fuel env adLimit).success = true) := by
  refine ⟨?_, ?_, ?_, ?_⟩
  · simp [fallbackPhase, hmiss]
  · simp [fallbackPhase, hmiss]
  · simp [fallbackPhase, hmiss]
  · intro fuel adLimit hok
    simp [scrapeV3, hok]

theorem fallback_precondition_witness :
    (fallbackPhase envV3Base 400 []).calls = 0 ∧
    (fallbackPhase envV3Base 400 []).apiAds = [] ∧
    Diag.missingTokens false false false ∈ (fallbackPhase envV3Base 400 []).diags :=
  ⟨(fallback_precondition envV3Base 400 [] (by decide)).1,
    (fallback_precondition envV3Base 400 [] (by decide)).2.1,
    (fallback_precondition envV3Base 400 [] (by decide)).2.2.1⟩

-- --- Scroll-loop lemmas ---

/-- Unfolding one stale (non-final) iteration of the basic scroll loop. -/
lemma basicGo_step_stale (env : EnvRun) (sd : List Diag) (limit : Nat)
    (f : Nat) (s : LoopState)
    (h1 : ¬ limit ≤ s.collected.length)
    (h2 : ¬ DEFAULT_TIMEOUT_MS < env.clock s.iter)
    (h3 : (extractAdsFromDom (env.domCards (s.iter + 1))).length = s.prev)
    (h4 : ¬ MAX_STALE_SCROLLS ≤ s.stale + 1) :
    scrollLoopBasicGo env sd limit (f + 1) s =
      scrollLoopBasicGo env sd limit f
        { collected := extractAdsFromDom (env.domCards (s.iter + 1)),
          stale := s.stale + 1,
          prev := (extractAdsFromDom (env.domCards (s.iter + 1))).length,
          iter := s.iter + 1,
          diags := if s.stale + 1 = 1 then s.diags ++ sd else s.diags } := by
  simp [scrollLoopBasicGo, h1, h2, h3, h4]

/-- Unfolding the final stale iteration of the basic scroll loop. -/
lemma basicGo_step_staleStop (env : EnvRun) (sd : List Diag) (limit : Nat)
    (f : Nat) (s : LoopState)
    (h1 : ¬ limit ≤ s.collected.length)
    (h2 : ¬ DEFAULT_TIMEOUT_MS < env.clock s.iter)
    (h3 : (extractAdsFromDom (env.domCards (s.iter + 1))).length = s.prev)
    (h4 : MAX_STALE_SCROLLS ≤ s.stale + 1) :
    scrollLoopBasicGo env sd limit (f + 1) s =
      ({ collected := extractAdsFromDom (env.domCards (s.iter + 1)),
         stale := s.stale + 1,
         prev := s.prev,
         iter := s.iter + 1,
         diags := if s.stale + 1 = 1 then s.diags ++ sd else s.diags },
        ExitReason.staleStop) := by
  simp [scrollLoopBasicGo, h1, h2, h3, h4]

/-- With a constant extraction count `c < limit` and the clock within
budget, a basic-loop state with `n` stale iterations left to go runs
exactly those `n` iterations and stops with reason `staleStop`. -/
lemma basicGo_stale_run (env : EnvRun) (sd : List Diag) (limit c : Nat)
    (hext : ∀ i, (extractAdsFromDom (env.domCards i)).length = c)
    (hclk : ∀ i, env.clock i ≤ DEFAULT_TIMEOUT_MS) (hc : c < limit) :
    ∀ n, 1 ≤ n → ∀ fuel s, s.stale + n = MAX_STALE_SCROLLS → s.prev = c →
      s.collected.length = c → n ≤ fuel →
      (scrollLoopBasicGo env sd limit fuel s).2 = ExitReason.staleStop ∧
      (scrollLoopBasicGo env sd limit fuel s).1.stale = MAX_STALE_SCROLLS ∧
      (scrollLoopBasicGo env sd limit fuel s).1.iter = s.iter + n := by
  intro n
  induction n with
  | zero => intro h; exact absurd h (by omega)
  | succ m ih =>
    intro _ fuel s hst hprev hlen hfuel
    obtain ⟨f, rfl⟩ : ∃ f, fuel = f + 1 := ⟨fuel - 1, by omega⟩
    have h1 : ¬ limit ≤ s.collected.length := by omega
    have h2 : ¬ DEFAULT_TIMEOUT_MS < env.clock s.iter :=
      not_lt.mpr (hclk s.iter)
    have h3 : (extractAdsFromDom (env.domCards (s.iter + 1))).length = s.prev := by
      rw [hext, hprev]
    by_cases hm : m = 0
    · subst hm
      have h4 : MAX_STALE_SCROLLS ≤ s.stale + 1 := by
        simp only [MAX_STALE_SCROLLS] at hst ⊢; omega
      rw [basicGo_step_staleStop env sd limit f s h1 h2 h3 h4]
      refine ⟨rfl, ?_, rfl⟩
      simp only [MAX_STALE_SCROLLS] at hst ⊢; omega
    · have h4 : ¬ MAX_STALE_SCROLLS ≤ s.stale + 1 := by
        simp only [MAX_STALE_SCROLLS] at hst ⊢; omega
      rw [basicGo_step_stale env sd limit f s h1 h2 h3 h4]
      have hres := ih (by omega) f
        { collected := extractAdsFromDom (env.domCards (s.iter + 1)),
          stale := s.stale + 1,
          prev := (extractAdsFromDom (env.domCards (s.iter + 1))).length,
          iter := s.iter + 1,
          diags := if s.stale + 1 = 1 then s.diags ++ sd else s.diags }
        (by simpa using by omega) (hext _) (by simp [hext]) (by omega)
      refine ⟨hres.1, hres.2.1, ?_⟩
      rw [hres.2.2]
      simp only []
      omega

/-- Unfolding one stale (non-exiting) iteration of the `scrapeV3` scroll
loop. -/
lemma v3Go_step_stale (env : EnvV3) (limit : Nat) (f : Nat) (s : LoopState)
    (h1 : ¬ limit ≤ s.collected.length)
    (h2 : ¬ DEFAULT_TIMEOUT_MS < env.scrollClock s.iter)
    (h3 : (extractAdsFromDom (env.domCards (s.iter + 1))).length = s.prev)
    (h5 : ¬ (3 ≤ s.stale + 1 ∧ s.prev ≤ 30))
    (h4 : ¬ MAX_STALE_SCROLLS ≤ s.stale + 1) :
    scrollLoopV3Go env limit (f + 1) s =
      scrollLoopV3Go env limit f
        { collected := extractAdsFromDom (env.domCards (s.iter + 1)),
          stale := s.stale + 1,
          prev := (extractAdsFromDom (env.domCards (s.iter + 1))).length,
          iter := s.iter + 1,
          diags := if s.stale + 1 = 1 then s.diags ++ [Diag.labeled "v3-first-stale"]
            else s.diags } := by
  simp [scrollLoopV3Go, h1, h2, h3, h4]
  intro h6 h7
  exact absurd ⟨by omega, h7⟩ h5

/-- Unfolding the iteration of the `scrapeV3` scroll loop that switches to
the direct-API approach. -/
lemma v3Go_step_switchApi (env : EnvV3) (limit : Nat) (f : Nat) (s : LoopState)
    (h1 : ¬ limit ≤ s.collected.length)
    (h2 : ¬ DEFAULT_TIMEOUT_MS < env.scrollClock s.iter)
    (h3 : (extractAdsFromDom (env.domCards (s.iter + 1))).length = s.prev)
    (h5 : 3 ≤ s.stale + 1 ∧ s.prev ≤ 30) :
    scrollLoopV3Go env limit (f + 1) s =
      ({ collected := extractAdsFromDom (env.domCards (s.iter + 1)),
         stale := s.stale + 1,
         prev := s.prev,
         iter := s.iter + 1,
         diags := if s.stale + 1 = 1 then s.diags ++ [Diag.labeled "v3-first-stale"]
           else s.diags },
        ExitReason.switchApi) := by
  simp [scrollLoopV3Go, h1, h2, h3, h5]

/-- With a constant extraction count `c ≤ 30`, `c < limit`, and the clock
within budget, a `scrapeV3`-loop state with `n ≤ 3` stale iterations left
before the fallback switch runs exactly those `n` iterations and exits with
`switchApi` at stale streak 3. -/
lemma v3Go_lowYield_run (env : EnvV3) (limit c : Nat)
    (hext : ∀ i, (extractAdsFromDom (env.domCards i)).length = c)
    (hclk : ∀ i, env.scrollClock i ≤ DEFAULT_TIMEOUT_MS)
    (hc : c < limit) (h30 : c ≤ 30) :
    ∀ n, 1 ≤ n → ∀ fuel s, s.stale + n = 3 → s.prev = c →
      s.collected.length = c → n ≤ fuel →
      (scrollLoopV3Go env limit fuel s).2 = ExitReason.switchApi ∧
      (scrollLoopV3Go env limit fuel s).1.stale = 3 ∧
      (scrollLoopV3Go env limit fuel s).1.iter = s.iter + n := by
  intro n
  induction n with
  | zero => intro h; exact absurd h (by omega)
  | succ m ih =>
    intro _ fuel s hst hprev hlen hfuel
    obtain ⟨f, rfl⟩ : ∃ f, fuel = f + 1 := ⟨fuel - 1, by omega⟩
    have h1 : ¬ limit ≤ s.collected.length := by omega
    have h2 : ¬ DEFAULT_TIMEOUT_MS < env.scrollClock s.iter :=
      not_lt.mpr (hclk s.iter)
    have h3 : (extractAdsFromDom (env.domCards (s.iter + 1))).length = s.prev := by
      rw [hext, hprev]
    by_cases hm : m = 0
    · subst hm
      have h5 : 3 ≤ s.stale + 1 ∧ s.prev ≤ 30 := ⟨by omega, by omega⟩
      rw [v3Go_step_switchApi env limit f s h1 h2 h3 h5]
      exact ⟨rfl, by simpa using by omega, rfl⟩
    · have h5 : ¬ (3 ≤ s.stale + 1 ∧ s.prev ≤ 30) := by
        intro h; omega
      have h4 : ¬ MAX_STALE_SCROLLS ≤ s.stale + 1 := by
        simp only [MAX_STALE_SCROLLS]; omega
      rw [v3Go_step_stale env limit f s h1 h2 h3 h5 h4]
      have hres := ih (by omega) f
        { collected := extractAdsFromDom (env.domCards (s.iter + 1)),
          stale := s.stale + 1,
          prev := (extractAdsFromDom (env.domCards (s.iter + 1))).length,
          iter := s.iter + 1,
          diags := if s.stale + 1 = 1 then s.diags ++ [Diag.labeled "v3-first-stale"]
            else s.diags }
        (by simpa using by omega) (hext _) (by simp [hext]) (by omega)
      refine ⟨hres.1, hres.2.1, ?_⟩
      rw [hres.2.2]
      simp only []
      omega

/-- The basic scroll loop never lets the stale streak exceed its ceiling:
from a state with streak at most 9, the final streak is at most
`MAX_STALE_SCROLLS`. -/
lemma basicGo_stale_le (env : EnvRun) (sd : List Diag) (limit : Nat) :
    ∀ fuel s, s.stale ≤ 9 →
      (scrollLoopBasicGo env sd limit fuel s).1.stale ≤ MAX_STALE_SCROLLS := by
  intro fuel
  induction fuel with
  | zero =>
    intro s hs
    simp only [scrollLoopBasicGo, MAX_STALE_SCROLLS]
    omega
  | succ f ih =>
    intro s hs
    simp only [scrollLoopBasicGo, MAX_STALE_SCROLLS]
    split
    · dsimp only; omega
    · split
      · dsimp only; omega
      · split
        · split
          · dsimp only; omega
          · exact ih _ (by dsimp only; omega)
        · exact ih _ (by dsimp only; omega)

/-- The `scrapeV3` scroll loop never lets the stale streak exceed its
ceiling either. -/
lemma v3Go_stale_le (env : EnvV3) (limit : Nat) :
    ∀ fuel s, s.stale ≤ 9 →
      (scrollLoopV3Go env limit fuel s).1.stale ≤ MAX_STALE_SCROLLS := by
  intro fuel
  induction fuel with
  | zero =>
    intro s hs
    simp only [scrollLoopV3Go, MAX_STALE_SCROLLS]
    omega
  | succ f ih =>
    intro s hs
    simp only [scrollLoopV3Go, MAX_STALE_SCROLLS]
    split
    · dsimp only; omega
    · split
      · dsimp only; omega
      · split
        · split
          · dsimp only; omega
          · split
            · dsimp only; omega
            · exact ih _ (by dsimp only; omega)
        · exact ih _ (by dsimp only; omega)

/-- Unfolding one count-changing iteration of the basic scroll loop: the
stale streak resets to 0. -/
lemma basicGo_step_reset (env : EnvRun) (sd : List Diag) (limit f : Nat)
    (s : LoopState)
    (h1 : ¬ limit ≤ s.collected.length)
    (h2 : ¬ DEFAULT_TIMEOUT_MS < env.clock s.iter)
    (h3 : (extractAdsFromDom (env.domCards (s.iter + 1))).length ≠ s.prev) :
    scrollLoopBasicGo env sd limit (f + 1) s =
      scrollLoopBasicGo env sd limit f
        { collected := extractAdsFromDom (env.domCards (s.iter + 1)),
          stale := 0,
          prev := (extractAdsFromDom (env.domCards (s.iter + 1))).length,
          iter := s.iter + 1, diags := s.diags } := by
  simp [scrollLoopBasicGo, h1, h2, h3]

/-- Unfolding one count-changing iteration of the `scrapeV3` scroll loop:
the stale streak resets to 0. -/
lemma v3Go_step_reset (env : EnvV3) (limit f : Nat) (s : LoopState)
    (h1 : ¬ limit ≤ s.collected.length)
    (h2 : ¬ DEFAULT_TIMEOUT_MS < env.scrollClock s.iter)
    (h3 : (extractAdsFromDom (env.domCards (s.iter + 1))).length ≠ s.prev) :
    scrollLoopV3Go env limit (f + 1) s =
      scrollLoopV3Go env limit f
        { collected := extractAdsFromDom (env.domCards (s.iter + 1)),
          stale := 0,
          prev := (extractAdsFromDom (env.domCards (s.iter + 1))).length,
          iter := s.iter + 1, diags := s.diags } := by
  simp [scrollLoopV3Go, h1, h2, h3]

-- --- Claim C3 ---

/-- A page constantly showing one valid ad card. -/
def cardOne : DomCard :=
  { metaSpans := ["Library ID: 42"], allSpans := [],
    video := some { src := "http://cdn/v.mp4", poster := "" }, imgs := [] }

def envV3One : EnvV3 := { envV3Base with domCards := fun _ => [cardOne] }

def envRunOne : EnvRun := { envRunBase with domCards := fun _ => [cardOne] }

/-- Claim C3 counterexample: in the `scrapeV3` scroll loop, with the
extraction count constant at 1 (which is ≤ 30), the limit (400) not
reached, and the clock at 0 (within budget), the loop stops at the 3rd
consecutive stale iteration — switching to the direct-API approach — not at
the 10th as the claim states for every run of the scroll loop. -/
theorem stale_ceiling_counterexample :
    (scrollLoopV3Go envV3One 400 20 (v3InitState envV3One)).2 =
      ExitReason.switchApi ∧
    (scrollLoopV3Go envV3One 400 20 (v3InitState envV3One)).1.stale = 3 ∧
    (scrollLoopV3Go envV3One 400 20 (v3InitState envV3One)).1.iter = 3 ∧
    (scrollLoopV3Go envV3One 400 20 (v3InitState envV3One)).1.collected.length
      < 400 := by
  decide

/-- Claim C3 amended: with a constant extraction count, limit and budget
untouched, the `scrape`/`scrapeV2` scroll loop stops exactly at the 10th
consecutive stale iteration (`MAX_STALE_SCROLLS`), never performing an
11th; the `scrapeV3` loop does so only when more than 30 records are
collected — at a constant count of at most 30 it stops at the 3rd stale
iteration to engage the API fallback; in all loops the stale streak never
exceeds the ceiling of 10. -/
theorem stale_ceiling_amended :
    (∀ env sd limit c fuel (s : LoopState),
      (∀ i, (extractAdsFromDom (env.domCards i)).length = c) →
      (∀ i, env.clock i ≤ DEFAULT_TIMEOUT_MS) →
      0 < c → c < limit → 11 ≤ fuel →
      s.stale = 0 → s.prev = 0 → s.collected = [] →
      (scrollLoopBasicGo env sd limit fuel s).2 = ExitReason.staleStop ∧
      (scrollLoopBasicGo env sd limit fuel s).1.stale = MAX_STALE_SCROLLS ∧
      (scrollLoopBasicGo env sd limit fuel s).1.iter = s.iter + 11) ∧
    (∀ env limit c fuel (s : LoopState),
      (∀ i, (extractAdsFromDom (env.domCards i)).length = c) →
      (∀ i, env.scrollClock i ≤ DEFAULT_TIMEOUT_MS) →
      c ≤ 30 → c < limit → 3 ≤ fuel →
      s.stale = 0 → s.prev = c → s.collected.length = c →
      (scrollLoopV3Go env limit fuel s).2 = ExitReason.switchApi ∧
      (scrollLoopV3Go env limit fuel s).1.stale = 3 ∧
      (scrollLoopV3Go env limit fuel s).1.iter = s.iter + 3) ∧
    (∀ env sd limit fuel s, s.stale ≤ 9 →
      (scrollLoopBasicGo env sd limit fuel s).1.stale ≤ MAX_STALE_SCROLLS) ∧
    (∀ env limit fuel s, s.stale ≤ 9 →
      (scrollLoopV3Go env limit fuel s).1.stale ≤ MAX_STALE_SCROLLS) := by
  refine ⟨?_, ?_, basicGo_stale_le, v3Go_stale_le⟩
  · intro env sd limit c fuel s hext hclk hc0 hc hfuel hstale hprev hcol
    obtain ⟨f, rfl⟩ : ∃ f, fuel = f + 1 := ⟨fuel - 1, by omega⟩
    have h1 : ¬ limit ≤ s.collected.length := by
      rw [hcol]; simp; omega
    have h2 : ¬ DEFAULT_TIMEOUT_MS < env.clock s.iter :=
      not_lt.mpr (hclk s.iter)
    have h3 : (extractAdsFromDom (env.domCards (s.iter + 1))).length ≠ s.prev := by
      rw [hext, hprev]; omega
    rw [basicGo_step_reset env sd limit f s h1 h2 h3]
    have hres := basicGo_stale_run env sd limit c hext hclk hc 10 (by omega) f
      { collected := extractAdsFromDom (env.domCards (s.iter + 1)), stale := 0,
        prev := (extractAdsFromDom (env.domCards (s.iter + 1))).length,
        iter := s.iter + 1, diags := s.diags }
      (by dsimp only; simp [MAX_STALE_SCROLLS]) (by dsimp only; exact hext _)
      (by dsimp only; exact hext _) (by omega)
    refine ⟨hres.1, hres.2.1, ?_⟩
    rw [hres.2.2]
  · intro env limit c fuel s hext hclk h30 hc hfuel hstale hprev hlen
    have hres := v3Go_lowYield_run env limit c hext hclk hc h30 3 (by omega)
      fuel s (by omega) hprev hlen (by omega)
    exact ⟨hres.1, hres.2.1, hres.2.2⟩

theorem stale_ceiling_amended_witness :
    (scrollLoopBasicGo envRunOne [] 10 12
      { collected := [], stale := 0, prev := 0, iter := 0, diags := [] }).2 =
        ExitReason.staleStop ∧
    (scrollLoopBasicGo envRunOne [] 10 12
      { collected := [], stale := 0, prev := 0, iter := 0, diags := [] }).1.stale =
        MAX_STALE_SCROLLS ∧
    (scrollLoopBasicGo envRunOne [] 10 12
      { collected := [], stale := 0, prev := 0, iter := 0, diags := [] }).1.iter =
        0 + 11 :=
  stale_ceiling_amended.1 envRunOne [] 10 1 12
    { collected := [], stale := 0, prev := 0, iter := 0, diags := [] }
    (fun _ => rfl) (fun _ => Nat.zero_le _) (by decide) (by decide) (by decide)
    rfl rfl rfl

-- --- Claim C8 ---

/-- Exit characterization of the `scrapeV3` scroll loop: each exit reason
implies the condition that caused it. -/
lemma v3Go_exit_spec (env : EnvV3) (limit : Nat) :
    ∀ fuel s,
      ((scrollLoopV3Go env limit fuel s).2 = ExitReason.limitReached →
        limit ≤ (scrollLoopV3Go env limit fuel s).1.collected.length) ∧
      ((scrollLoopV3Go env limit fuel s).2 = ExitReason.timeout →
        DEFAULT_TIMEOUT_MS <
          env.scrollClock (scrollLoopV3Go env limit fuel s).1.iter) ∧
      ((scrollLoopV3Go env limit fuel s).2 = ExitReason.staleStop →
        MAX_STALE_SCROLLS ≤ (scrollLoopV3Go env limit fuel s).1.stale) ∧
      ((scrollLoopV3Go env limit fuel s).2 = ExitReason.switchApi →
        3 ≤ (scrollLoopV3Go env limit fuel s).1.stale ∧
        (scrollLoopV3Go env limit fuel s).1.collected.length ≤ 30) := by
  intro fuel
  induction fuel with
  | zero =>
    intro s
    exact ⟨fun hx => (nomatch hx), fun hx => (nomatch hx), fun hx => (nomatch hx),
      fun hx => (nomatch hx)⟩
  | succ f ih =>
    intro s
    simp only [scrollLoopV3Go]
    split
    · rename_i h
      exact ⟨fun _ => h, fun hx => (nomatch hx), fun hx => (nomatch hx),
        fun hx => (nomatch hx)⟩
    · split
      · rename_i h
        exact ⟨fun hx => (nomatch hx), fun _ => h, fun hx => (nomatch hx),
          fun hx => (nomatch hx)⟩
      · split
        · split
          · rename_i h5
            exact ⟨fun hx => (nomatch hx), fun hx => (nomatch hx),
              fun hx => (nomatch hx), fun _ => ⟨h5.1, h5.2⟩⟩
          · split
            · rename_i h4
              exact ⟨fun hx => (nomatch hx), fun hx => (nomatch hx),
                fun _ => h4, fun hx => (nomatch hx)⟩
            · exact ih _
        · exact ih _

/-- Claim C8 counterexample: the `scrapeV3` scroll loop on a page that
never renders ads terminates at stale streak 3 with the collected count
(0) strictly below the limit (400), the stale streak strictly below the
ceiling of 10, and the clock within budget — an exit (the fallback switch)
that the claim's enumeration of termination conditions does not allow. -/
theorem loop_invariant_counterexample :
    (scrollLoopV3Go envV3Base 400 20 (v3InitState envV3Base)).2 =
      ExitReason.switchApi ∧
    (scrollLoopV3Go envV3Base 400 20 (v3InitState envV3Base)).1.stale = 3 ∧
    (scrollLoopV3Go envV3Base 400 20 (v3InitState envV3Base)).1.stale <
      MAX_STALE_SCROLLS ∧
    (scrollLoopV3Go envV3Base 400 20 (v3InitState envV3Base)).1.collected.length
      < 400 ∧
    envV3Base.scrollClock
        (scrollLoopV3Go envV3Base 400 20 (v3InitState envV3Base)).1.iter ≤
      DEFAULT_TIMEOUT_MS := by
  decide

/-- Claim C8 amended: in every iteration where the newly extracted count
differs from the prior count (in particular when it is strictly greater),
the stale streak resets to 0; the loop terminates when the streak reaches
the ceiling, the count reaches the limit, or the budget expires — or, in
`scrapeV3` only, when the streak reaches 3 while at most 30 records are
collected (the fallback switch); each exit implies its condition. -/
theorem loop_invariant_amended :
    (∀ env sd limit f (s : LoopState),
      ¬ limit ≤ s.collected.length →
      ¬ DEFAULT_TIMEOUT_MS < env.clock s.iter →
      (extractAdsFromDom (env.domCards (s.iter + 1))).length ≠ s.prev →
      scrollLoopBasicGo env sd limit (f + 1) s =
        scrollLoopBasicGo env sd limit f
          { collected := extractAdsFromDom (env.domCards (s.iter + 1)),
            stale := 0,
            prev := (extractAdsFromDom (env.domCards (s.iter + 1))).length,
            iter := s.iter + 1, diags := s.diags }) ∧
    (∀ env limit f (s : LoopState),
      ¬ limit ≤ s.collected.length →
      ¬ DEFAULT_TIMEOUT_MS < env.scrollClock s.iter →
      (extractAdsFromDom (env.domCards (s.iter + 1))).length ≠ s.prev →
      scrollLoopV3Go env limit (f + 1) s =
        scrollLoopV3Go env limit f
          { collected := extractAdsFromDom (env.domCards (s.iter + 1)),
            stale := 0,
            prev := (extractAdsFromDom (env.domCards (s.iter + 1))).length,
            iter := s.iter + 1, diags := s.diags }) ∧
    (∀ env limit fuel s,
      ((scrollLoopV3Go env limit fuel s).2 = ExitReason.limitReached →
        limit ≤ (scrollLoopV3Go env limit fuel s).1.collected.length) ∧
      ((scrollLoopV3Go env limit fuel s).2 = ExitReason.timeout →
        DEFAULT_TIMEOUT_MS <
          env.scrollClock (scrollLoopV3Go env limit fuel s).1.iter) ∧
      ((scrollLoopV3Go env limit fuel s).2 = ExitReason.staleStop →
        MAX_STALE_SCROLLS ≤ (scrollLoopV3Go env limit fuel s).1.stale) ∧
      ((scrollLoopV3Go env limit fuel s).2 = ExitReason.switchApi →
        3 ≤ (scrollLoopV3Go env limit fuel s).1.stale ∧
        (scrollLoopV3Go env limit fuel s).1.collected.length ≤ 30)) :=
  ⟨basicGo_step_reset, v3Go_step_reset, fun env limit fuel s =>
    v3Go_exit_spec env limit fuel s⟩

theorem loop_invariant_amended_witness :
    scrollLoopBasicGo envRunOne [] 10 4
        { collected := [], stale := 2, prev := 5, iter := 0, diags := [] } =
      scrollLoopBasicGo envRunOne [] 10 3
        { collected := extractAdsFromDom (envRunOne.domCards 1), stale := 0,
          prev := (extractAdsFromDom (envRunOne.domCards 1)).length,
          iter := 1, diags := [] } :=
  loop_invariant_amended.1 envRunOne [] 10 3
    { collected := [], stale := 2, prev := 5, iter := 0, diags := [] }
    (by decide) (by decide) (by decide)

-- --- Claim C2 ---

/-- Members of a `mergeStep` fold either come from the initial accumulator
or entered through the guard, whose DOM-clash check was then false. -/
lemma mergeStep_fold_mem (dom : List ScrapedAd) :
    ∀ (api acc : List ScrapedAd) a, a ∈ api.foldl (mergeStep dom) acc →
      a ∈ acc ∨
        (a ∈ api ∧ dom.any (fun b => b.libraryId == a.libraryId) = false) := by
  intro api
  induction api with
  | nil => intro acc a ha; exact Or.inl ha
  | cons x xs ih =>
    intro acc a ha
    simp only [List.foldl_cons] at ha
    rcases ih _ a ha with h | h
    · by_cases hg : (dom.any (fun b => b.libraryId == x.libraryId) ||
          acc.any (fun b => b.libraryId == x.libraryId)) = true
      · rw [mergeStep, if_pos hg] at h
        exact Or.inl h
      · rw [mergeStep, if_neg hg] at h
        rcases List.mem_append.mp h with h' | h'
        · exact Or.inl h'
        · have hax : a = x := by simpa using h'
          subst hax
          refine Or.inr ⟨List.mem_cons_self _ _, ?_⟩
          simp only [Bool.or_eq_true, not_or] at hg
          simpa using hg.1
    · exact Or.inr ⟨List.mem_cons_of_mem _ h.1, h.2⟩

/-- The inline dedup fold of the API loop (line 1009-1046) is the
`mergeStep` fold over the records it would build: the source checks the
identifier before building, and `buildApiAd` gives the record exactly that
identifier. -/
lemma apiFold_eq_mergeFold (collected : List ScrapedAd) (body : String) :
    ∀ (ids : List String) (acc : List ScrapedAd),
      ids.foldl (fun acc adId =>
        if collected.any (fun a => a.libraryId == adId) ||
            acc.any (fun a => a.libraryId == adId) then acc
        else acc ++ [buildApiAd body adId]) acc =
      (ids.map (buildApiAd body)).foldl (mergeStep collected) acc := by
  intro ids
  induction ids with
  | nil => intro acc; rfl
  | cons x xs ih =>
    intro acc
    simp only [List.foldl_cons, List.map_cons]
    rw [ih]
    rfl

/-- Claim C2: the merge keeps all DOM-derived records first, in order; an
API-derived record survives only when its `libraryId` clashes with no
DOM-derived record (nor an earlier API record — it is dropped by the fold
otherwise); truncation preserves relative order (it yields a sublist); the
API loop's inline dedup is exactly this fold; and on the spec's example,
DOM `[A, B]` merged with API `[B', C]` (where `B'` carries `B`'s
identifier) gives `[A, B, C]` with `B` taken from the DOM source. -/
theorem merge_contract :
    (∀ dom api : List ScrapedAd, (mergeAds dom api).take dom.length = dom) ∧
    (∀ dom api a, a ∈ mergeApi dom api →
      a ∈ api ∧ ∀ b ∈ dom, b.libraryId ≠ a.libraryId) ∧
    (∀ dom api : List ScrapedAd, ∀ n,
      List.Sublist ((mergeAds dom api).take n) (mergeAds dom api)) ∧
    (∀ (collected : List ScrapedAd) (body : String) (ids : List String)
        (acc : List ScrapedAd),
      ids.foldl (fun acc adId =>
        if collected.any (fun a => a.libraryId == adId) ||
            acc.any (fun a => a.libraryId == adId) then acc
        else acc ++ [buildApiAd body adId]) acc =
      (ids.map (buildApiAd body)).foldl (mergeStep collected) acc) ∧
    mergeAds [adA, adB] [adBApi, adC] = [adA, adB, adC] := by
  refine ⟨?_, ?_, ?_, apiFold_eq_mergeFold, by decide⟩
  · intro dom api
    exact List.take_left dom (mergeApi dom api)
  · intro dom api a ha
    rcases mergeStep_fold_mem dom api [] a ha with h | h
    · simp at h
    · refine ⟨h.1, ?_⟩
      intro b hb
      have hfalse := h.2
      rw [List.any_eq_false] at hfalse
      simpa using hfalse b hb
  · intro dom api n
    exact List.take_sublist n (mergeAds dom api)

theorem merge_contract_witness :
    adA.libraryId ≠ adC.libraryId :=
  (merge_contract.2.1 [adA] [adC] adC (by decide)).2 adA (by decide)

-- --- Claim C9 ---

/-- The fields the API parsing path never populates. -/
def apiRecordSparse (a : ScrapedAd) : Prop :=
  a.endDate = none ∧ a.thumbnailUrl = none ∧
  a.lowImpressionCount = false ∧ a.impressions = none

lemma buildApiAd_shape (body adId : String) :
    apiRecordSparse (buildApiAd body adId) ∧
    (buildApiAd body adId).libraryId = adId :=
  ⟨⟨rfl, rfl, rfl, rfl⟩, rfl⟩

lemma idPatTail_ne_empty (cs : List Char) (d : String) (r : List Char)
    (h : idPatTail cs = some (d, r)) : d ≠ "" := by
  simp only [idPatTail] at h
  split at h
  · split at h
    · exact absurd h (by simp)
    · rename_i hds
      rw [Option.some.injEq] at h
      injection h with h1 h2
      subst h1
      intro hcontra
      exact hds (by simpa using congrArg String.data hcontra)
  · exact absurd h (by simp)

lemma idPatAt_ne_empty (cs : List Char) (d : String) (r : List Char)
    (h : idPatAt cs = some (d, r)) : d ≠ "" := by
  unfold idPatAt at h
  split at h
  · exact idPatTail_ne_empty _ _ _ h
  · split at h
    · exact idPatTail_ne_empty _ _ _ h
    · exact absurd h (by simp)

/-- Every identifier produced by the `matchAll` scan is a non-empty digit
capture. -/
lemma scanIdsAux_ne_empty : ∀ fuel cs d, d ∈ scanIdsAux fuel cs → d ≠ "" := by
  intro fuel
  induction fuel with
  | zero => intro cs d h; simp [scanIdsAux] at h
  | succ f ih =>
    intro cs d h
    match cs with
    | [] => simp [scanIdsAux] at h
    | c :: rest =>
      simp only [scanIdsAux] at h
      cases hat : idPatAt (c :: rest) with
      | some pr =>
        obtain ⟨d', r'⟩ := pr
        rw [hat] at h
        simp only [List.mem_cons] at h
        rcases h with rfl | h
        · exact idPatAt_ne_empty _ _ _ hat
        · exact ih _ _ h
      | none =>
        rw [hat] at h
        exact ih _ _ h

lemma scanIds_ne_empty (s : String) (d : String) (h : d ∈ scanIds s) :
    d ≠ "" :=
  scanIdsAux_ne_empty _ _ _ h

lemma firstWins_aux_mem (l : List String) :
    ∀ (acc : List String) x,
      x ∈ l.foldl (fun acc y => if acc.contains y then acc else acc ++ [y]) acc →
      x ∈ acc ∨ x ∈ l := by
  induction l with
  | nil => intro acc x h; exact Or.inl h
  | cons y ys ih =>
    intro acc x h
    simp only [List.foldl_cons] at h
    rcases ih _ x h with h' | h'
    · by_cases hc : acc.contains y = true
      · rw [if_pos hc] at h'
        exact Or.inl h'
      · rw [if_neg hc] at h'
        rcases List.mem_append.mp h' with h'' | h''
        · exact Or.inl h''
        · have : x = y := by simpa using h''
          subst this
          exact Or.inr (List.mem_cons_self _ _)
    · exact Or.inr (List.mem_cons_of_mem _ h')

lemma firstWins_subset (l : List String) (x : String)
    (h : x ∈ firstWins l) : x ∈ l := by
  rcases firstWins_aux_mem l [] x h with h' | h'
  · simp at h'
  · exact h'

/-- Every record the API loop adds beyond its initial accumulator is a
sparse record with a non-empty identifier. -/
lemma apiLoop_mem (env : EnvV3) (limit : Nat) (collected : List ScrapedAd) :
    ∀ fuel apiPage cur apiAds diags a,
      a ∈ (apiLoop env limit collected fuel apiPage cur apiAds diags).apiAds →
      a ∈ apiAds ∨ (apiRecordSparse a ∧ a.libraryId ≠ "") := by
  intro fuel
  induction fuel with
  | zero => intro apiPage cur apiAds diags a h; exact Or.inl h
  | succ f ih =>
    intro apiPage cur apiAds diags a h
    simp only [apiLoop] at h
    split at h
    · exact Or.inl h
    · split at h
      · exact Or.inl h
      · split at h
        · exact Or.inl h
        · split at h
          · split at h
            · -- recursion on the fold result
              rcases ih _ _ _ _ a h with h' | h'
              · rw [apiFold_eq_mergeFold] at h'
                rcases mergeStep_fold_mem collected _ _ a h' with h'' | h''
                · exact Or.inl h''
                · rcases List.mem_map.mp h''.1 with ⟨id, hid, rfl⟩
                  refine Or.inr ⟨(buildApiAd_shape _ id).1, ?_⟩
                  rw [(buildApiAd_shape _ id).2]
                  exact scanIds_ne_empty _ _ (firstWins_subset _ _ hid)
              · exact Or.inr h'
            · -- noCursor exit returns the fold result
              rw [apiFold_eq_mergeFold] at h
              rcases mergeStep_fold_mem collected _ _ a h with h'' | h''
              · exact Or.inl h''
              · rcases List.mem_map.mp h''.1 with ⟨id, hid, rfl⟩
                refine Or.inr ⟨(buildApiAd_shape _ id).1, ?_⟩
                rw [(buildApiAd_shape _ id).2]
                exact scanIds_ne_empty _ _ (firstWins_subset _ _ hid)
          · exact Or.inl h

/-- Claim C9: every record produced by the direct-API fallback has
`endDate = null`, `thumbnailUrl = null`, `lowImpressionCount = false` and
`impressions = null`; its `libraryId` is the scanned identifier, and its
`assetType` is `video` exactly when a video-HD or video-SD URL pattern is
found in the text window around the identifier, else `image` — strictly
sparser than DOM-derived records. -/
theorem api_record_shape :
    (∀ body adId, apiRecordSparse (buildApiAd body adId) ∧
      (buildApiAd body adId).libraryId = adId) ∧
    (∀ body adId, (buildApiAd body adId).assetType = AssetType.video ↔
      (jsOr (jsonField "video_hd_url" (apiRegion body adId))
        (jsonField "video_sd_url" (apiRegion body adId))).isSome) ∧
    (∀ env limit collected a,
      a ∈ (fallbackPhase env limit collected).apiAds → apiRecordSparse a) := by
  refine ⟨buildApiAd_shape, ?_, ?_⟩
  · intro body adId
    unfold buildApiAd
    cases h : jsOr (jsonField "video_hd_url" (apiRegion body adId))
        (jsonField "video_sd_url" (apiRegion body adId)) with
    | none => simp [h]
    | some v => simp [h]
  · intro env limit collected a ha
    simp only [fallbackPhase] at ha
    split at ha
    · dsimp only at ha
      rcases apiLoop_mem env limit collected 51 0 _ [] [] a ha with h | h
      · simp at h
      · exact h.1
    · simp at ha

/-- A run whose captured traffic and embedded scripts yield all three
tokens, and whose first API page returns one ad fragment. -/
def envV3Api : EnvV3 :=
  { envV3Base with
    graphqlTraffic :=
      [{ reqBody := "doc_id=7&fb_dtsg=T8&lsd=L1&variables=viewAllPageID",
         respSnippet := "", status := 200 }],
    scriptsText := "\"forward_cursor\":\"CUR1\"",
    apiFetch := fun _ =>
      { ok := true, status := 200,
        body := "\x7b\"library_id\":\"777\",\"snapshot_url\":\"http:\\/\\/cdn\\/x\"\x7d" } }

theorem api_record_shape_witness :
    apiRecordSparse
      (buildApiAd (stripForPrefix (envV3Api.apiFetch 1).body) "777") :=
  api_record_shape.2.2 envV3Api 400 [] _ (by decide)

-- --- Claim C6 ---

/-- A `findSome?` result satisfies any property that every hit of the
scanning function satisfies. -/
lemma findSome_prop {α β : Type} (P : β → Prop) (f : α → Option β)
    (hf : ∀ x v, f x = some v → P v) :
    ∀ (l : List α) (v : β), l.findSome? f = some v → P v := by
  intro l
  induction l with
  | nil => intro v h; simp [List.findSome?] at h
  | cons x xs ih =>
    intro v h
    rw [List.findSome?_cons] at h
    cases hfx : f x with
    | some b =>
      rw [hfx] at h
      dsimp only at h
      exact hf x v (hfx.trans h)
    | none =>
      rw [hfx] at h
      dsimp only at h
      exact ih v h

/-- The `Library ID:` capture is a non-empty digit run. -/
lemma matchLibraryId_ne_empty (t lid : String)
    (h : matchLibraryId t = some lid) : lid ≠ "" := by
  refine findSome_prop (fun v => v ≠ "") _ ?_ _ _ h
  intro x v hx
  dsimp only at hx
  split at hx
  · exact absurd hx (by simp)
  · rename_i hds
    rw [Option.some.injEq] at hx
    subst hx
    intro hcontra
    exact hds (by simpa using congrArg String.data hcontra)

/-- Every record `extractCard` emits carries the card's matched library
identifier. -/
lemma extractCard_libraryId (card : DomCard) (a : ScrapedAd)
    (ha : a ∈ extractCard card) :
    ∃ lid, matchLibraryId ((card.metaSpans.head?).getD "") = some lid ∧
      a.libraryId = lid := by
  cases hml : matchLibraryId ((card.metaSpans.head?).getD "") with
  | none =>
    simp only [extractCard, hml] at ha
    exact absurd ha (by simp)
  | some lid =>
    refine ⟨lid, rfl, ?_⟩
    simp only [extractCard, hml] at ha
    repeat' split at ha
    all_goals simp_all

lemma extractAdsFromDom_libraryId_ne (cards : List DomCard) (a : ScrapedAd)
    (ha : a ∈ extractAdsFromDom cards) : a.libraryId ≠ "" := by
  rcases List.mem_flatten.mp ha with ⟨l, hl, hal⟩
  rcases List.mem_map.mp hl with ⟨card, hcard, rfl⟩
  rcases extractCard_libraryId card a hal with ⟨lid, hml, hid⟩
  rw [hid]
  exact matchLibraryId_ne_empty _ _ hml

/-- The `mergeStep` fold preserves distinctness of identifiers across the
DOM records and the accumulated API records. -/
lemma mergeStep_fold_nodup (dom : List ScrapedAd) :
    ∀ (api acc : List ScrapedAd),
      ((dom ++ acc).map ScrapedAd.libraryId).Nodup →
      ((dom ++ api.foldl (mergeStep dom) acc).map ScrapedAd.libraryId).Nodup := by
  intro api
  induction api with
  | nil => intro acc h; exact h
  | cons x xs ih =>
    intro acc h
    simp only [List.foldl_cons]
    apply ih
    by_cases hg : (dom.any (fun b => b.libraryId == x.libraryId) ||
        acc.any (fun b => b.libraryId == x.libraryId)) = true
    · rw [mergeStep, if_pos hg]
      exact h
    · rw [mergeStep, if_neg hg]
      simp only [Bool.or_eq_true, not_or] at hg
      have hx : x.libraryId ∉ (dom ++ acc).map ScrapedAd.libraryId := by
        intro hmem
        rcases List.mem_map.mp hmem with ⟨b, hb, hbid⟩
        rcases List.mem_append.mp hb with hb' | hb'
        · have := List.any_eq_false.mp (Bool.not_eq_true _ ▸ hg.1) b hb'
          simp [hbid] at this
        · have := List.any_eq_false.mp (Bool.not_eq_true _ ▸ hg.2) b hb'
          simp [hbid] at this
      rw [show dom ++ (acc ++ [x]) = (dom ++ acc) ++ [x] from
        (List.append_assoc dom acc [x]).symm, List.map_append]
      simp only [List.map_cons, List.map_nil]
      rw [List.nodup_append]
      refine ⟨h, by simp, fun y hy hy2 => ?_⟩
      have hyx : y = x.libraryId := by simpa using hy2
      subst hyx
      exact hx hy

/-- The API pagination loop preserves distinctness of identifiers. -/
lemma apiLoop_nodup (env : EnvV3) (limit : Nat) (collected : List ScrapedAd) :
    ∀ fuel apiPage cur apiAds diags,
      ((collected ++ apiAds).map ScrapedAd.libraryId).Nodup →
      ((collected ++
          (apiLoop env limit collected fuel apiPage cur apiAds diags).apiAds).map
        ScrapedAd.libraryId).Nodup := by
  intro fuel
  induction fuel with
  | zero => intro _ _ _ _ h; exact h
  | succ f ih =>
    intro apiPage cur apiAds diags h
    simp only [apiLoop]
    split
    · exact h
    · split
      · exact h
      · split
        · exact h
        · split
          · split
            · exact ih _ _ _ _ (by
                rw [apiFold_eq_mergeFold]
                exact mergeStep_fold_nodup collected _ _ h)
            · dsimp only
              rw [apiFold_eq_mergeFold]
              exact mergeStep_fold_nodup collected _ _ h
          · exact h

/-- Every record the fallback phase emits is sparse with a non-empty
identifier. -/
lemma fallbackPhase_mem (env : EnvV3) (limit : Nat)
    (collected : List ScrapedAd) (a : ScrapedAd)
    (ha : a ∈ (fallbackPhase env limit collected).apiAds) :
    apiRecordSparse a ∧ a.libraryId ≠ "" := by
  simp only [fallbackPhase] at ha
  split at ha
  · dsimp only at ha
    rcases apiLoop_mem env limit collected 51 0 _ [] [] a ha with h | h
    · simp at h
    · exact h
  · simp at ha

/-- The fallback phase preserves distinctness of identifiers. -/
lemma fallbackPhase_nodup (env : EnvV3) (limit : Nat)
    (collected : List ScrapedAd)
    (h : (collected.map ScrapedAd.libraryId).Nodup) :
    ((collected ++ (fallbackPhase env limit collected).apiAds).map
      ScrapedAd.libraryId).Nodup := by
  simp only [fallbackPhase]
  split
  · dsimp only
    exact apiLoop_nodup env limit collected 51 0 _ [] [] (by simpa using h)
  · simpa using h

/-- The collected records of the `scrapeV3` scroll loop are always the
output of one DOM extraction. -/
lemma v3Go_collected_extract (env : EnvV3) (limit : Nat) :
    ∀ fuel s, (∃ k, s.collected = extractAdsFromDom (env.domCards k)) →
      ∃ k, (scrollLoopV3Go env limit fuel s).1.collected =
        extractAdsFromDom (env.domCards k) := by
  intro fuel
  induction fuel with
  | zero => intro s h; exact h
  | succ f ih =>
    intro s h
    simp only [scrollLoopV3Go]
    split
    · exact h
    · split
      · exact h
      · split
        · split
          · exact ⟨_, rfl⟩
          · split
            · exact ⟨_, rfl⟩
            · exact ih _ ⟨_, rfl⟩
        · exact ih _ ⟨_, rfl⟩

/-- A page that renders the same ad card (same library identifier) twice. -/
def cardDup : DomCard :=
  { metaSpans := ["Library ID: 123"], allSpans := [],
    video := some { src := "http://cdn/d.mp4", poster := "" }, imgs := [] }

def envV3Dup : EnvV3 :=
  { envV3Base with domCards := fun _ => [cardDup, cardDup] }

/-- Claim C6 counterexample: a successful `scrapeV3` run against a DOM
holding two cards with the same library identifier returns two records
sharing `libraryId = "123"` — the DOM extraction path performs no
deduplication, so uniqueness within the final result fails. -/
theorem libraryId_invariant_counterexample :
    (scrapeV3 20 envV3Dup 400).success = true ∧
    (scrapeV3 20 envV3Dup 400).ads.map ScrapedAd.libraryId =
      ["123", "123"] := by
  decide

/-- Claim C6 amended: `libraryId` is never empty — a DOM card without a
matched identifier is skipped and every API record carries its scanned
identifier; API-derived records never duplicate an identifier already
present (cross-source, first occurrence wins); but DOM-derived records are
emitted exactly as extracted, so the final `ads` have pairwise-distinct
identifiers only when every DOM extraction yields pairwise-distinct
identifiers. -/
theorem libraryId_invariant_amended :
    (∀ cards a, a ∈ extractAdsFromDom cards → a.libraryId ≠ "") ∧
    (∀ fuel (env : EnvV3) adLimit a, a ∈ (scrapeV3 fuel env adLimit).ads →
      a.libraryId ≠ "") ∧
    (∀ fuel (env : EnvV3) adLimit,
      (∀ i, ((extractAdsFromDom (env.domCards i)).map ScrapedAd.libraryId).Nodup) →
      ((scrapeV3 fuel env adLimit).ads.map ScrapedAd.libraryId).Nodup) := by
  refine ⟨extractAdsFromDom_libraryId_ne, ?_, ?_⟩
  · intro fuel env adLimit a ha
    rcases henv : env.thrown with _ | msg
    · simp only [scrapeV3, henv] at ha
      have hsub := List.take_subset _ _ ha
      split at hsub
      · rcases List.mem_append.mp hsub with hm | hm
        · rcases v3Go_collected_extract env ((effectiveLimit adLimit).toNat)
              fuel (v3InitState env) ⟨0, rfl⟩ with ⟨k, hk⟩
          rw [hk] at hm
          exact extractAdsFromDom_libraryId_ne _ _ hm
        · exact (fallbackPhase_mem _ _ _ _ hm).2
      · rcases v3Go_collected_extract env ((effectiveLimit adLimit).toNat)
            fuel (v3InitState env) ⟨0, rfl⟩ with ⟨k, hk⟩
        rw [hk] at hsub
        exact extractAdsFromDom_libraryId_ne _ _ hsub
    · simp [scrapeV3, henv] at ha
  · intro fuel env adLimit hnd
    rcases henv : env.thrown with _ | msg
    · simp only [scrapeV3, henv]
      rcases v3Go_collected_extract env ((effectiveLimit adLimit).toNat)
          fuel (v3InitState env) ⟨0, rfl⟩ with ⟨k, hk⟩
      have hbase : (((scrollLoopV3Go env ((effectiveLimit adLimit).toNat) fuel
          (v3InitState env)).1.collected).map ScrapedAd.libraryId).Nodup := by
        rw [hk]; exact hnd k
      split
      · dsimp only
        exact (fallbackPhase_nodup env _ _ hbase).sublist
          (List.Sublist.map _ (List.take_sublist _ _))
      · dsimp only
        exact hbase.sublist (List.Sublist.map _ (List.take_sublist _ _))
    · simp [scrapeV3, henv]

theorem libraryId_invariant_amended_witness :
    ({ libraryId := "42", assetType := AssetType.video,
       assetUrl := some "http://cdn/v.mp4", thumbnailUrl := none,
       startDate := none, endDate := none, lowImpressionCount := false,
       impressions := none } : ScrapedAd).libraryId ≠ "" :=
  libraryId_invariant_amended.1 [cardOne] _ (by decide)
